import Mathlib

/-!
# Verification of the outbound campaign dashboard pipeline

A shallow embedding of `src/outbound_dashboard.py`: the record-normalization,
cohort-KPI, temporal-series and pivot logic of the dashboard, with the pandas
operations it relies on (`pd.to_datetime(..., errors='coerce')`, `.dt.date`,
`Series.map(...).fillna(0)`, `groupby(...).agg/size/cumsum`, column access with
`KeyError`) modelled explicitly.  Machine floats that only ever hold exact
small values (contact counts, day counts, means over rationals) are modelled
by `Nat`/`Rat`.
-/

namespace OutboundDash

/-- A calendar date, as carried by a pandas `Timestamp` (the time-of-day part
is never used by the dashboard). -/
@[ext]
structure Date where
  year : Nat
  month : Nat
  day : Nat
deriving DecidableEq, Repr

/-- Gregorian leap-year rule, as implemented by `datetime`. -/
def isLeap (y : Nat) : Bool :=
  y % 4 == 0 && (y % 100 != 0 || y % 400 == 0)

/-- Number of days in a month of a given year (`datetime` calendar). -/
def daysInMonth (y m : Nat) : Nat :=
  if m = 2 then (if isLeap y then 29 else 28)
  else if m = 4 ∨ m = 6 ∨ m = 9 ∨ m = 11 then 30
  else 31

/-- The validity check `datetime.date(y, m, d)` performs on construction. -/
def ValidDate (d : Date) : Prop :=
  1 ≤ d.month ∧ d.month ≤ 12 ∧ 1 ≤ d.day ∧ d.day ≤ daysInMonth d.year d.month

instance (d : Date) : Decidable (ValidDate d) := by
  unfold ValidDate; infer_instance

/-- `Timestamp.replace(year=y)` (line 137 of the source): keeps month and day,
replaces the year, and raises `ValueError` (here `none`) when the resulting
date does not exist. -/
def replaceYear (d : Date) (y : Nat) : Option Date :=
  let c : Date := ⟨y, d.month, d.day⟩
  if ValidDate c then some c else none

/-- Split a character list at `'-'` separators (accumulator holds the current
chunk reversed). -/
def splitDashAux : List Char → List Char → List (List Char)
  | [], acc => [acc.reverse]
  | c :: t, acc =>
    if c = '-' then acc.reverse :: splitDashAux t []
    else splitDashAux t (c :: acc)

/-- Read a non-empty all-digit chunk as a natural number. -/
def digitsToNat (cs : List Char) : Option Nat :=
  if cs ≠ [] ∧ cs.all (fun c => c.isDigit) then
    some (cs.foldl (fun a c => 10 * a + (c.toNat - 48)) 0)
  else none

/-- Strict date parse, the scalar kernel of `pd.to_datetime`: an ISO
`YYYY-MM-DD` string yields a calendar-checked `Date`, anything else fails
(`errors='coerce'` turns the failure into `NaT`, i.e. `none`, at the column
level). -/
def parseDate (s : String) : Option Date :=
  match splitDashAux s.toList [] with
  | [ys, ms, ds] =>
    match digitsToNat ys, digitsToNat ms, digitsToNat ds with
    | some y, some m, some d =>
      let c : Date := ⟨y, m, d⟩
      if ValidDate c then some c else none
    | _, _, _ => none
  | _ => none

/-- A pandas column, tagged by dtype: `strCol` is the object/string dtype that
`pd.read_csv` produces for date-like text, `dateCol` is `datetime64` (with
`none` for `NaT`), `natCol` holds the numeric result of the contact mapping,
`ratCol` holds general numeric data. Missing cells are `none`. -/
inductive Column where
  | strCol (vals : List (Option String))
  | dateCol (vals : List (Option Date))
  | natCol (vals : List Nat)
  | ratCol (vals : List (Option Rat))
deriving DecidableEq, Repr

/-- The `.dt.date` accessor (line 18 of the source): defined on datetimelike
columns only; on the object column that `read_csv` yields for
`plan_close_dt` it raises `AttributeError`. -/
def dtDate : Column → Except String (List (Option Date))
  | .dateCol vs => .ok vs
  | _ => .error "AttributeError: Can only use .dt accessor with datetimelike values"

/-- `pd.to_datetime(col, errors='coerce')` (lines 21-22, 52-53): per-cell
strict parse; an unparseable cell becomes `NaT` (`none`) — the failure is
per-field and the column operation itself never raises. -/
def to_datetime_coerce : Column → Column
  | .strCol vs => .dateCol (vs.map (fun s => s.bind parseDate))
  | c => c

/-- The six-entry `contact_map` of the CSV branch (lines 25-32). -/
def contact_map (s : String) : Option Nat :=
  if s = "TKT - To start" then some 0
  else if s = "TKT - 1st contact complete" then some 1
  else if s = "TKT - 2nd contact complete" then some 2
  else if s = "TKT - 3rd contact complete" then some 3
  else if s = "TKT - 4th contact complete" then some 4
  else if s = "TKT - 5th contact complete" then some 5
  else none

/-- The truncated four-entry `contact_map` of the Excel branch (lines 54-55). -/
def contact_map_excel (s : String) : Option Nat :=
  if s = "TKT - To start" then some 0
  else if s = "TKT - 1st contact complete" then some 1
  else if s = "TKT - 2nd contact complete" then some 2
  else if s = "TKT - 3rd contact complete" then some 3
  else none

/-- `df['previous_step_at_closure'].map(contact_map).fillna(0)` at one cell of
the CSV branch (line 33): a missing label or a label outside the dict maps to
`NaN`, and `fillna` turns that into 0. -/
def csvContactCount (l : Option String) : Nat :=
  (l.bind contact_map).getD 0

/-- The same operation on the Excel branch (line 56), with the truncated map. -/
def excelContactCount (l : Option String) : Nat :=
  (l.bind contact_map_excel).getD 0

/-- `Series.map(dict).fillna(0)` at column level: string cells are looked up
in the dict (miss ⇒ `NaN` ⇒ 0); non-string cells never match a string key and
also end at 0. -/
def map_contacts (m : String → Option Nat) : Column → Column
  | .strCol vs => .natCol (vs.map (fun s => (s.bind m).getD 0))
  | .dateCol vs => .natCol (vs.map (fun _ => 0))
  | .natCol vs => .natCol (vs.map (fun _ => 0))
  | .ratCol vs => .natCol (vs.map (fun _ => 0))

/-- `astype(str)` (lines 36, 57): stringify cells; a missing cell renders as
the literal string `"nan"`. -/
def astype_str : Column → Column
  | .strCol vs => .strCol (vs.map (fun s => some (s.getD "nan")))
  | .dateCol vs =>
    .strCol (vs.map (fun d =>
      some (match d with
            | none => "NaT"
            | some d => toString d.year ++ "-" ++ toString d.month ++ "-" ++ toString d.day)))
  | .natCol vs => .strCol (vs.map (fun n => some (toString n)))
  | .ratCol vs =>
    .strCol (vs.map (fun q =>
      some (match q with | none => "nan" | some q => toString q)))

/-- A raw tabular input: named columns, as uploaded. `df[name]` on a missing
column raises `KeyError: name`. -/
def getCol (df : List (String × Column)) (name : String) : Except String Column :=
  match df.lookup name with
  | some c => .ok c
  | none => .error ("KeyError: " ++ name)

/-- The CSV loader `load_data` (lines 14-38).  Faithful to the source order:
the `.dt.date` extraction at line 18 runs **before** the
`pd.to_datetime(..., errors='coerce')` conversions at lines 21-22, so it acts
on the raw object column produced by `read_csv`. -/
def load_data (df : List (String × Column)) : Except String (List (String × Column)) := do
  let pc ← getCol df "plan_close_dt"
  let closeDate ← dtDate pc
  let pcParsed := to_datetime_coerce pc
  let od ← getCol df "order_dt"
  let odParsed := to_datetime_coerce od
  let ps ← getCol df "previous_step_at_closure"
  let contacts := map_contacts contact_map ps
  let cy ← getCol df "campaign_year"
  .ok (("close_date", Column.dateCol closeDate)
       :: ("plan_close_dt", pcParsed)
       :: ("order_dt", odParsed)
       :: ("contact_count", contacts)
       :: ("campaign_year", astype_str cy)
       :: df)

/-- The Excel branch of the loader (lines 51-57) followed by the column
accesses the dashboard body performs on the frame (lines 66, 85, 87): same
shape as `load_data` but with the truncated contact map and no `.dt.date`
step. -/
def excel_pipeline (df : List (String × Column)) : Except String (List (String × Column)) := do
  let pc ← getCol df "plan_close_dt"
  let pcParsed := to_datetime_coerce pc
  let od ← getCol df "order_dt"
  let odParsed := to_datetime_coerce od
  let ps ← getCol df "previous_step_at_closure"
  let contacts := map_contacts contact_map_excel ps
  let cy ← getCol df "campaign_year"
  let _ ← getCol df "campaign_series"
  let _ ← getCol df "customer_no"
  let _ ← getCol df "days_to_plan_close"
  .ok (("plan_close_dt", pcParsed)
       :: ("order_dt", odParsed)
       :: ("contact_count", contacts)
       :: ("campaign_year", astype_str cy)
       :: df)

/-- The required input columns, in the order the dashboard touches them. -/
def requiredCols : List String :=
  ["plan_close_dt", "order_dt", "previous_step_at_closure", "campaign_year",
   "campaign_series", "customer_no", "days_to_plan_close"]

/-- The `try ... except Exception as e: st.error(f"An error occurred: {e}")`
boundary (lines 45, 235-236): every exception escaping the transform is folded
into the single generic failure message. -/
def dashboard_run (df : List (String × Column)) : Except String (List (String × Column)) :=
  match excel_pipeline df with
  | .ok out => .ok out
  | .error e => .error ("An error occurred: " ++ e)

/-- A normalized sale record, one row of the loaded frame as the aggregation
code sees it (`filtered_df`): strings for identity and grouping keys,
`Option Date` with `none` for `NaT`, the derived `contact_count`, and
`days_to_plan_close` used as-is. -/
structure SaleRecord where
  customer_no : String
  campaign_year : String
  campaign_series : String
  plan_close_dt : Option Date
  order_dt : Option Date
  previous_step_at_closure : Option String
  contact_count : Nat
  days_to_plan_close : Rat
deriving DecidableEq, Repr

/-- One row through the CSV branch of the normalizer: dates via
`pd.to_datetime(..., errors='coerce')`, `contact_count` via the six-entry
`contact_map` with `fillna(0)`. -/
def csv_normalize_row (customer year series : String) (pc od : Option String)
    (label : Option String) (days : Rat) : SaleRecord :=
  ⟨customer, year, series, pc.bind parseDate, od.bind parseDate, label,
   csvContactCount label, days⟩

/-- One row through the Excel branch: identical except that `contact_count`
uses the truncated four-entry `contact_map`. -/
def excel_normalize_row (customer year series : String) (pc od : Option String)
    (label : Option String) (days : Rat) : SaleRecord :=
  ⟨customer, year, series, pc.bind parseDate, od.bind parseDate, label,
   excelContactCount label, days⟩

/-- `filtered_df[filtered_df['campaign_year'] == y]`-style cohort selection,
as `groupby('campaign_year')` partitions the frame. -/
def cohortRecords (rs : List SaleRecord) (y : String) : List SaleRecord :=
  rs.filter (fun r => r.campaign_year = y)

/-- The distinct `campaign_year` keys, ascending — `groupby` sorts its group
keys (`campaign_year` is a string after `astype(str)`, so lexicographically). -/
def kpiYears (rs : List SaleRecord) : List String :=
  List.insertionSort (fun a b : String => a ≤ b) (rs.map (fun r => r.campaign_year)).dedup

/-- `Series.mean()`: sum over length (the cohort lists it is applied to are
never empty, so the `NaN`-on-empty case is unreachable). -/
def mean (l : List Rat) : Rat :=
  l.sum / (l.length : Rat)

/-- `Series.median()`: sort; middle element for odd length, average of the two
middle elements for even length. -/
def median (l : List Rat) : Rat :=
  let s := List.insertionSort (fun a b : Rat => a ≤ b) l
  let n := s.length
  if n % 2 = 1 then s.getD (n / 2) 0
  else (s.getD (n / 2 - 1) 0 + s.getD (n / 2) 0) / 2

/-- One row of `kpi_df` (lines 84-94). `Zero_Touch_Count` is an `Option`
because the zero-touch series is computed by a *separate* groupby (line 92)
and assigned by index alignment (line 93): a year with no zero-contact record
is absent from that series and aligns to `NaN` (`none`). -/
structure KPIRow where
  Total_Sales : Nat
  Avg_Contacts : Rat
  Avg_Days_to_Close : Rat
  Median_Days_to_Close : Rat
  Zero_Touch_Count : Option Nat
  pct_Zero_Touch : Rat
deriving DecidableEq, Repr

/-- The zero-touch series of line 92:
`filtered_df[filtered_df['contact_count'] == 0].groupby('campaign_year')['customer_no'].count()`
looked up at year `y`; the key is present iff the filtered frame has a row for
`y`. -/
def zero_touch (rs : List SaleRecord) (y : String) : Option Nat :=
  let z := ((cohortRecords rs y).filter (fun r => r.contact_count = 0)).length
  if z = 0 then none else some z

/-- The `kpi_df` row for year `y` (lines 84-94): `agg` counts `customer_no`
(present on every record, hence the cohort size), means and median over the
cohort, then `Zero_Touch_Count` by aligned assignment and
`%_Zero_Touch = (Zero_Touch_Count / Total_Sales * 100).fillna(0)` — `NaN`
divided by anything is `NaN`, which `fillna` maps to 0. -/
def kpi_row (rs : List SaleRecord) (y : String) : KPIRow :=
  let c := cohortRecords rs y
  { Total_Sales := c.length
    Avg_Contacts := mean (c.map (fun r => (r.contact_count : Rat)))
    Avg_Days_to_Close := mean (c.map (fun r => r.days_to_plan_close))
    Median_Days_to_Close := median (c.map (fun r => r.days_to_plan_close))
    Zero_Touch_Count := zero_touch rs y
    pct_Zero_Touch :=
      match zero_touch rs y with
      | none => 0
      | some z => (z : Rat) / (c.length : Rat) * 100 }

/-- Chronological (lexicographic year-month-day) order on dates, the order in
which pandas sorts `Timestamp` keys. -/
def dateLE (a b : Date) : Prop :=
  a.year < b.year ∨
    (a.year = b.year ∧ (a.month < b.month ∨ (a.month = b.month ∧ a.day ≤ b.day)))

/-- Strict chronological order on dates. -/
def dateLT (a b : Date) : Prop :=
  dateLE a b ∧ a ≠ b

instance : DecidableRel dateLE := by
  unfold dateLE; infer_instance

instance : DecidableRel dateLT := by
  unfold dateLT; infer_instance

instance : IsTotal Date dateLE :=
  ⟨fun a b => by unfold dateLE; omega⟩

instance : IsTrans Date dateLE :=
  ⟨fun a b c hab hbc => by unfold dateLE at *; omega⟩

/-- The records `groupby(['campaign_year', 'plan_close_dt'])` actually groups:
pandas drops rows whose group key contains `NaT`, so only date-valid records
survive (line 121). -/
def dateValid (rs : List SaleRecord) : List SaleRecord :=
  rs.filter (fun r => r.plan_close_dt.isSome)

/-- Distinct years among an (already date-valid) record list, ascending: the
outer level of the sorted `(campaign_year, plan_close_dt)` group keys. -/
def dailyYearsOf (vs : List SaleRecord) : List String :=
  List.insertionSort (fun a b : String => a ≤ b) (vs.map (fun r => r.campaign_year)).dedup

/-- Distinct close dates of year `y` in an (already date-valid) record list,
ascending: the inner level of the sorted group keys. -/
def sortedCohortDatesOf (vs : List SaleRecord) (y : String) : List Date :=
  List.insertionSort dateLE
    (vs.filterMap (fun r => if r.campaign_year = y then r.plan_close_dt else none)).dedup

/-- `.size()` of the `(y, d)` group: how many records close on day `d` of
cohort `y`. -/
def dailyCountOf (vs : List SaleRecord) (y : String) (d : Date) : Nat :=
  (vs.filter (fun r => r.campaign_year = y ∧ r.plan_close_dt = some d)).length

/-- The per-cohort slice of the `daily_sales` table, date-ascending. -/
def cohortDailyRowsOf (vs : List SaleRecord) (y : String) : List (Date × Nat) :=
  (sortedCohortDatesOf vs y).map (fun d => (d, dailyCountOf vs y d))

/-- The `daily_sales` table (lines 121-125):
`groupby(['campaign_year','plan_close_dt']).size()` then
`sort_values(['campaign_year','plan_close_dt'])` — year-major, date-minor
sorted rows, i.e. the concatenation over ascending years of the
date-ascending per-cohort slices. -/
def daily_sales (rs : List SaleRecord) : List (String × Date × Nat) :=
  let vs := dateValid rs
  (dailyYearsOf vs).flatMap (fun y => (cohortDailyRowsOf vs y).map (fun p => (y, p.1, p.2)))

/-- Running sum of the counts of a row list, starting from `acc`. -/
def cumsumFrom (acc : Nat) : List (Date × Nat) → List (Date × Nat)
  | [] => []
  | p :: t => (p.1, acc + p.2) :: cumsumFrom (acc + p.2) t

/-- The per-cohort slice of the cumulative table:
`groupby('campaign_year')['daily_sales'].cumsum()` (line 126) on the
year-major sorted table accumulates within each contiguous year block, i.e.
runs `cumsumFrom 0` over each cohort's date-ascending rows. -/
def cohort_cumulative (rs : List SaleRecord) (y : String) : List (Date × Nat) :=
  cumsumFrom 0 (cohortDailyRowsOf (dateValid rs) y)

/-- The `daily_sales` table with its `cumulative_sales` column (line 126). -/
def cumulative_sales (rs : List SaleRecord) : List (String × Date × Nat) :=
  let vs := dateValid rs
  (dailyYearsOf vs).flatMap (fun y => (cumsumFrom 0 (cohortDailyRowsOf vs y)).map (fun p => (y, p.1, p.2)))

/-- Days elapsed before month `m` within a year (`leap` = leap year). -/
def daysBeforeMonth (m : Nat) (leap : Bool) : Nat :=
  let base :=
    if m = 1 then 0 else if m = 2 then 31 else if m = 3 then 59
    else if m = 4 then 90 else if m = 5 then 120 else if m = 6 then 151
    else if m = 7 then 181 else if m = 8 then 212 else if m = 9 then 243
    else if m = 10 then 273 else if m = 11 then 304 else 334
  base + (if leap ∧ 3 ≤ m then 1 else 0)

/-- Proleptic-Gregorian day number: day 1 is 0001-01-01.  Chronological order
of valid dates equals numeric order of day numbers, and weekdays are constant
residues mod 7. -/
def dayNumber (d : Date) : Nat :=
  let y := d.year - 1
  365 * y + y / 4 - y / 100 + y / 400 + daysBeforeMonth d.month (isLeap d.year) + d.day

/-- The mod-7 residue class of Sundays: anchored at 2023-01-01, a Sunday. -/
def sundayAnchor : Nat :=
  dayNumber ⟨2023, 1, 1⟩ % 7

/-- The `resample('W')` bucket label for a day: the next day in the Sunday
residue class (the day itself when it is a Sunday) — pandas' week-ending
`W-SUN` convention. -/
def weekEndNum (n : Nat) : Nat :=
  n + ((sundayAnchor + 7 - n % 7) % 7)

/-- Week-bucket keys of an (already date-valid) record list, one per record. -/
def weekKeysOf (vs : List SaleRecord) : List Nat :=
  vs.filterMap (fun r => r.plan_close_dt.map (fun d => weekEndNum (dayNumber d)))

/-- Modelled from the spec: the **weekly volume** table (spec §4.3 item 3 and
§6 output (c)) is absent from the source variant under `src/` (the spec
collapses three near-duplicate source variants; the provided one has no
`resample` call).  Per the spec's words: date-valid records are resampled
into fixed weekly buckets labelled by their week-ending day (standard
ISO-week-anchored `resample('W')`, i.e. buckets end on Sundays) with a sales
count per bucket. -/
def weekly_volume (rs : List SaleRecord) : List (Nat × Nat) :=
  let ks := weekKeysOf (dateValid rs)
  (List.insertionSort (fun a b : Nat => a ≤ b) ks.dedup).map (fun k => (k, ks.count k))

/-- Lexicographic order on `(campaign_series, campaign_year)` group keys. -/
def pairLE (a b : String × String) : Prop :=
  a.1 < b.1 ∨ (a.1 = b.1 ∧ a.2 ≤ b.2)

instance : DecidableRel pairLE := by
  unfold pairLE; infer_instance

/-- The `series_stats` pivot (line 222):
`filtered_df.groupby(['campaign_series','campaign_year'])['contact_count'].mean().reset_index()`
— one row per `(series, year)` key present, carrying only the mean contact
count. -/
def series_stats (rs : List SaleRecord) : List (String × String × Rat) :=
  (List.insertionSort pairLE (rs.map (fun r => (r.campaign_series, r.campaign_year))).dedup).map
    (fun k => (k.1, k.2,
      mean ((rs.filter (fun r => r.campaign_series = k.1 ∧ r.campaign_year = k.2)).map
        (fun r => (r.contact_count : Rat)))))

/-- The calendar-alignment projection (line 137):
`daily_sales['plan_close_dt'].apply(lambda x: x.replace(year=2020))`. -/
def plot_date (d : Date) : Option Date :=
  replaceYear d 2020

/-- A one-row CSV upload whose `plan_close_dt` cell is unparseable; as after
`pd.read_csv`, the date columns are object (string) columns. -/
def csvBatch1 : List (String × Column) :=
  [("customer_no", .strCol [some "c1"]),
   ("campaign_year", .strCol [some "2025"]),
   ("campaign_series", .strCol [some "A"]),
   ("plan_close_dt", .strCol [some "not a date"]),
   ("order_dt", .strCol [some "2025-03-01"]),
   ("previous_step_at_closure", .strCol [some "TKT - 1st contact complete"]),
   ("days_to_plan_close", .ratCol [some 10])]

/-- A raw frame lacking the required `previous_step_at_closure` column. -/
def frameNoStep : List (String × Column) :=
  [("customer_no", .strCol [some "c1"]),
   ("campaign_year", .strCol [some "2025"]),
   ("campaign_series", .strCol [some "A"]),
   ("plan_close_dt", .dateCol [some ⟨2025, 3, 1⟩]),
   ("order_dt", .dateCol [some ⟨2025, 3, 1⟩]),
   ("days_to_plan_close", .ratCol [some 10])]

/-- Two records of cohort `"2025"`, contact counts 1 and 2 (no zero-touch
sale). -/
def c3Rec1 : SaleRecord := ⟨"c1", "2025", "A", none, none, none, 1, 10⟩

/-- See `c3Rec1`. -/
def c3Rec2 : SaleRecord := ⟨"c2", "2025", "A", none, none, none, 2, 12⟩

/-- A single record of cohort `"2026"`, zero-touch, for concrete KPI checks. -/
def c3wRec : SaleRecord := ⟨"w1", "2026", "B", none, none, none, 0, 5⟩

/-- A record with an unparseable close date (`NaT` marker). -/
def c5wRec : SaleRecord :=
  ⟨"cw", "2027", "C", none, some ⟨2027, 1, 1⟩, some "TKT - To start", 0, 7⟩

/-- Two records sharing the `("S1", "2025")` pivot key with equal contact
counts and distinct customers. -/
def c9RecA : SaleRecord := ⟨"a1", "2025", "S1", none, none, none, 2, 10⟩

/-- See `c9RecA`. -/
def c9RecB : SaleRecord := ⟨"a2", "2025", "S1", none, none, none, 2, 11⟩

/-! ## Helper lemmas -/

/-- 2020, the hard-coded alignment year, never has fewer days in a month than
any other year (it is a leap year). -/
theorem daysInMonth_le_2020 (y m : Nat) : daysInMonth y m ≤ daysInMonth 2020 m := by
  unfold daysInMonth
  by_cases hm : m = 2
  · simp only [hm, if_pos rfl]
    have h20 : isLeap 2020 = true := by decide
    rw [h20]
    cases isLeap y <;> simp
  · simp [hm]

/-- Membership in a cohort: a record of year `y` is in `cohortRecords rs y`. -/
theorem mem_cohortRecords {rs : List SaleRecord} {r : SaleRecord} {y : String}
    (hr : r ∈ rs) (hy : r.campaign_year = y) : r ∈ cohortRecords rs y := by
  simp [cohortRecords, List.mem_filter, hr, hy]

/-- A year listed by `kpiYears` has at least one record in its cohort. -/
theorem cohort_nonempty_of_mem_kpiYears {rs : List SaleRecord} {y : String}
    (h : y ∈ kpiYears rs) : 0 < (cohortRecords rs y).length := by
  have h1 : y ∈ rs.map (fun r => r.campaign_year) := by
    have h2 : y ∈ (rs.map (fun r => r.campaign_year)).dedup := by
      simpa [kpiYears] using h
    exact List.mem_dedup.mp h2
  obtain ⟨r, hr, hy⟩ := List.mem_map.mp h1
  exact List.length_pos_of_mem (mem_cohortRecords hr hy)

/-- The first components of a running-sum list are those of its input. -/
theorem cumsumFrom_map_fst (acc : Nat) (l : List (Date × Nat)) :
    (cumsumFrom acc l).map Prod.fst = l.map Prod.fst := by
  induction l generalizing acc with
  | nil => rfl
  | cons p t ih => simp [cumsumFrom, ih]

/-- A running sum over positive counts is strictly increasing. -/
theorem cumsumFrom_chain_lt (acc : Nat) (l : List (Date × Nat))
    (h : ∀ p ∈ l, 1 ≤ p.2) :
    List.Chain' (fun p q : Date × Nat => p.2 < q.2) (cumsumFrom acc l) := by
  induction l generalizing acc with
  | nil => simp [cumsumFrom]
  | cons p t ih =>
    simp only [cumsumFrom]
    rw [List.chain'_cons']
    constructor
    · intro q hq
      cases t with
      | nil => simp [cumsumFrom] at hq
      | cons p2 t2 =>
        simp only [cumsumFrom, List.head?_cons, Option.mem_def, Option.some.injEq] at hq
        have h2 : 1 ≤ p2.2 := h p2 (by simp)
        rw [← hq]
        simp
        omega
    · exact ih (acc + p.2) (fun q hq => h q (by simp [hq]))

/-- Every date that `sortedCohortDatesOf` lists is the close date of at least
one record of that cohort, so its daily count is positive. -/
theorem dailyCount_pos_of_mem {vs : List SaleRecord} {y : String} {d : Date}
    (hd : d ∈ sortedCohortDatesOf vs y) : 1 ≤ dailyCountOf vs y d := by
  have h1 : d ∈ vs.filterMap (fun r => if r.campaign_year = y then r.plan_close_dt else none) := by
    have h2 : d ∈ (vs.filterMap (fun r => if r.campaign_year = y then r.plan_close_dt else none)).dedup := by
      simpa [sortedCohortDatesOf] using hd
    exact List.mem_dedup.mp h2
  obtain ⟨r, hr, hrd⟩ := List.mem_filterMap.mp h1
  by_cases hy : r.campaign_year = y
  · rw [if_pos hy] at hrd
    refine List.length_pos_of_mem (List.mem_filter.mpr ⟨hr, ?_⟩)
    simp [hy, hrd]
  · rw [if_neg hy] at hrd
    exact absurd hrd (by simp)

/-- The per-cohort date axis is strictly ascending: sorted by
`sort_values` and duplicate-free since the dates are group keys. -/
theorem sortedCohortDates_chain (vs : List SaleRecord) (y : String) :
    List.Chain' dateLT (sortedCohortDatesOf vs y) := by
  have hs : List.Sorted dateLE (sortedCohortDatesOf vs y) :=
    List.sorted_insertionSort dateLE _
  have hn : (sortedCohortDatesOf vs y).Nodup := by
    unfold sortedCohortDatesOf
    exact (List.perm_insertionSort dateLE _).nodup_iff.mpr (List.nodup_dedup _)
  exact (List.Pairwise.imp₂ (fun a b hle hne => ⟨hle, hne⟩) hs hn).chain'

/-- The key columns of the `series_stats` pivot are exactly the sorted,
deduplicated `(campaign_series, campaign_year)` group keys. -/
theorem series_stats_keys (rs : List SaleRecord) :
    (series_stats rs).map (fun t => (t.1, t.2.1))
      = List.insertionSort pairLE (rs.map (fun r => (r.campaign_series, r.campaign_year))).dedup := by
  unfold series_stats
  rw [List.map_map]
  exact List.map_id _

/-! ## Claim theorems -/

/-- C1: the claim says a date-parse failure in `plan_close_dt`/`order_dt` is
local to the field (stored as the unknown-date marker) and never aborts the
batch.  The code contradicts it: line 18 applies `.dt.date` to the raw object
column *before* the `errors='coerce'` conversion of line 21, which raises
`AttributeError` and aborts the whole CSV load — for any batch at all.  The
second conjunct shows the conversion the code was meant to reach is indeed
per-field and non-raising (the claim describes the evident intent). -/
theorem c1_csv_dt_accessor_aborts_batch :
    load_data csvBatch1
      = .error "AttributeError: Can only use .dt accessor with datetimelike values"
  ∧ to_datetime_coerce (Column.strCol [some "not a date", some "2025-03-01"])
      = Column.dateCol [none, some ⟨2025, 3, 1⟩] :=
  ⟨rfl, rfl⟩

/-- C2: the claim says the CSV and Excel ingestion paths normalize every
record identically, in particular mapping `'TKT - 4th contact complete'` and
`'TKT - 5th contact complete'` to 4 and 5 on both paths.  The Excel branch
uses a truncated four-entry map, so both labels fall to `fillna(0)` there:
identical input rows yield `contact_count` 4 vs 0 and 5 vs 0. -/
theorem c2_csv_excel_divergence :
    (csv_normalize_row "c1" "2025" "A" none none (some "TKT - 4th contact complete") 10).contact_count = 4
  ∧ (excel_normalize_row "c1" "2025" "A" none none (some "TKT - 4th contact complete") 10).contact_count = 0
  ∧ (csv_normalize_row "c1" "2025" "A" none none (some "TKT - 5th contact complete") 10).contact_count = 5
  ∧ (excel_normalize_row "c1" "2025" "A" none none (some "TKT - 5th contact complete") 10).contact_count = 0 := by
  refine ⟨rfl, rfl, rfl, rfl⟩

/-- C7 counterexample: the claim says the overlay reprojects onto a *non-leap*
reference year, so February 29 has no valid target and faults.  The code's
reference year is 2020, which is a leap year: `2024-02-29` reprojects to the
valid `2020-02-29` and no fault occurs. -/
theorem c7_feb29_no_fault :
    plot_date ⟨2024, 2, 29⟩ = some ⟨2020, 2, 29⟩ ∧ isLeap 2020 = true := by
  exact ⟨rfl, rfl⟩

/-- C7 as amended: the aligned view reprojects every date-valid close date
onto the fixed reference year 2020 — a leap year — preserving month and day,
and this never faults (February 29 included, since 2020-02-29 exists). -/
theorem c7_alignment_preserves_month_day (d : Date) (h : ValidDate d) :
    plot_date d = some ⟨2020, d.month, d.day⟩ := by
  unfold plot_date replaceYear
  have hv : ValidDate ⟨2020, d.month, d.day⟩ := by
    obtain ⟨h1, h2, h3, h4⟩ := h
    exact ⟨h1, h2, h3, le_trans h4 (daysInMonth_le_2020 d.year d.month)⟩
  rw [if_pos hv]

/-- Witness for `c7_alignment_preserves_month_day` at the leap day 2024-02-29. -/
theorem c7_alignment_preserves_month_day_witness :
    ValidDate ⟨2024, 2, 29⟩ ∧ plot_date ⟨2024, 2, 29⟩ = some ⟨2020, 2, 29⟩ :=
  ⟨by decide, c7_alignment_preserves_month_day ⟨2024, 2, 29⟩ (by decide)⟩

/-- C4 counterexample: the claim says a missing required column surfaces a
distinctly-typed `SchemaError` verbatim, not folded into the generic failure
message.  On a frame lacking `previous_step_at_closure`, the run aborts with
the plain `KeyError` wrapped in the single generic
`"An error occurred: ..."` message of lines 235-236 — which is not the
verbatim error. -/
theorem c4_keyerror_folded_generic :
    dashboard_run frameNoStep
      = .error "An error occurred: KeyError: previous_step_at_closure"
  ∧ "An error occurred: KeyError: previous_step_at_closure"
      ≠ "KeyError: previous_step_at_closure" :=
  ⟨rfl, by decide⟩

/-- C4 as amended: if any required column is absent, the run aborts — the
first missing column (in the order the code touches them) raises a `KeyError`
and no output frame is produced — but the failure is reported through the
same generic `"An error occurred: {e}"` message as any other transform error,
not as a distinct `SchemaError` surfaced verbatim. -/
theorem c4_missing_column_aborts (df : List (String × Column))
    (h : ∃ c ∈ requiredCols, df.lookup c = none) :
    ∃ c ∈ requiredCols, df.lookup c = none
      ∧ dashboard_run df = .error ("An error occurred: KeyError: " ++ c) := by
  cases h1 : df.lookup "plan_close_dt" with
  | none =>
    exact ⟨"plan_close_dt", by simp [requiredCols], h1,
      by simp [dashboard_run, excel_pipeline, getCol, h1, bind, Except.bind]⟩
  | some col1 =>
  cases h2 : df.lookup "order_dt" with
  | none =>
    exact ⟨"order_dt", by simp [requiredCols], h2,
      by simp [dashboard_run, excel_pipeline, getCol, h1, h2, bind, Except.bind]⟩
  | some col2 =>
  cases h3 : df.lookup "previous_step_at_closure" with
  | none =>
    exact ⟨"previous_step_at_closure", by simp [requiredCols], h3,
      by simp [dashboard_run, excel_pipeline, getCol, h1, h2, h3, bind, Except.bind]⟩
  | some col3 =>
  cases h4 : df.lookup "campaign_year" with
  | none =>
    exact ⟨"campaign_year", by simp [requiredCols], h4,
      by simp [dashboard_run, excel_pipeline, getCol, h1, h2, h3, h4, bind, Except.bind]⟩
  | some col4 =>
  cases h5 : df.lookup "campaign_series" with
  | none =>
    exact ⟨"campaign_series", by simp [requiredCols], h5,
      by simp [dashboard_run, excel_pipeline, getCol, h1, h2, h3, h4, h5, bind, Except.bind]⟩
  | some col5 =>
  cases h6 : df.lookup "customer_no" with
  | none =>
    exact ⟨"customer_no", by simp [requiredCols], h6,
      by simp [dashboard_run, excel_pipeline, getCol, h1, h2, h3, h4, h5, h6, bind, Except.bind]⟩
  | some col6 =>
  cases h7 : df.lookup "days_to_plan_close" with
  | none =>
    exact ⟨"days_to_plan_close", by simp [requiredCols], h7,
      by simp [dashboard_run, excel_pipeline, getCol, h1, h2, h3, h4, h5, h6, h7, bind, Except.bind]⟩
  | some col7 =>
    exfalso
    obtain ⟨c, hc, hnone⟩ := h
    simp only [requiredCols, List.mem_cons, List.not_mem_nil, or_false] at hc
    rcases hc with rfl | rfl | rfl | rfl | rfl | rfl | rfl <;>
      simp_all

/-- Witness for `c4_missing_column_aborts` on the concrete frame lacking
`previous_step_at_closure`. -/
theorem c4_missing_column_aborts_witness :
    (∃ c ∈ requiredCols, frameNoStep.lookup c = none)
  ∧ (∃ c ∈ requiredCols, frameNoStep.lookup c = none
      ∧ dashboard_run frameNoStep = .error ("An error occurred: KeyError: " ++ c)) :=
  ⟨⟨"previous_step_at_closure", by decide, by decide⟩,
   c4_missing_column_aborts frameNoStep ⟨"previous_step_at_closure", by decide, by decide⟩⟩

/-- C6 counterexample: the claim says every normalized record's
`contact_count` is produced by exact-match lookup in the fixed *six-entry*
table.  On the Excel branch (also cited by the claim) the label
`'TKT - 4th contact complete'` yields 0, while the six-entry table maps it to
4 — so that record's `contact_count` is not the six-entry lookup. -/
theorem c6_excel_not_six_entry :
    excelContactCount (some "TKT - 4th contact complete") = 0
  ∧ contact_map "TKT - 4th contact complete" = some 4
  ∧ excelContactCount (some "TKT - 4th contact complete")
      ≠ (contact_map "TKT - 4th contact complete").getD 0 := by
  refine ⟨rfl, rfl, by decide⟩

/-- C6 as amended: on every path, `contact_count` lies in `{0,1,2,3,4,5}` and
an unmatched or missing label maps to exactly 0; the CSV branch looks labels
up in the six-entry table, while the Excel branch uses a truncated four-entry
table (so its image is even contained in `{0,1,2,3}`). -/
theorem c6_contact_count_range (label : Option String) :
    csvContactCount label ∈ ({0, 1, 2, 3, 4, 5} : Finset Nat)
  ∧ excelContactCount label ∈ ({0, 1, 2, 3, 4, 5} : Finset Nat)
  ∧ (label.bind contact_map = none → csvContactCount label = 0)
  ∧ (label.bind contact_map_excel = none → excelContactCount label = 0) := by
  refine ⟨?_, ?_, ?_, ?_⟩
  · obtain _ | s := label
    · decide
    · show (contact_map s).getD 0 ∈ _
      unfold contact_map
      split_ifs <;> decide
  · obtain _ | s := label
    · decide
    · show (contact_map_excel s).getD 0 ∈ _
      unfold contact_map_excel
      split_ifs <;> decide
  · intro h
    unfold csvContactCount
    rw [h]
    rfl
  · intro h
    unfold excelContactCount
    rw [h]
    rfl

/-- Witness for `c6_contact_count_range` at the out-of-table label
`'TKT - 6th contact complete'` (the spec's scenario): both branches map it to
exactly 0. -/
theorem c6_contact_count_range_witness :
    csvContactCount (some "TKT - 6th contact complete") = 0
  ∧ excelContactCount (some "TKT - 6th contact complete") = 0 := by
  have h := c6_contact_count_range (some "TKT - 6th contact complete")
  exact ⟨h.2.2.1 (by decide), h.2.2.2 (by decide)⟩

/-- C3 counterexample: the claim says the KPI row contains
`zero_touch_count = count of records with contact_count == 0`.  For a cohort
with no zero-touch record (counts 1 and 2), the aligned assignment of line 93
stores `NaN` (`none`) in `Zero_Touch_Count`, not the count 0. -/
theorem c3_zero_touch_nan :
    (kpi_row [c3Rec1, c3Rec2] "2025").Zero_Touch_Count
      ≠ some (((cohortRecords [c3Rec1, c3Rec2] "2025").filter
          (fun r => r.contact_count = 0)).length) := by
  decide

/-- C3 as amended: for every `campaign_year` present in the filtered records,
the KPI row has `Total_Sales` = cohort size (which is at least 1, so the
`total_sales == 0` edge never arises and no division fault can occur),
the stated means and median, and
`pct_Zero_Touch = zero-touch count / Total_Sales * 100`, a value in
`[0, 100]` — including the no-zero-touch case, where the stored
`Zero_Touch_Count` is the missing marker (`NaN`) rather than 0 but
`fillna(0)` still makes the percentage equal `0 / Total_Sales * 100`. -/
theorem c3_kpi_cohort_row (rs : List SaleRecord) (y : String) (h : y ∈ kpiYears rs) :
    (kpi_row rs y).Total_Sales = (cohortRecords rs y).length
  ∧ 1 ≤ (kpi_row rs y).Total_Sales
  ∧ (kpi_row rs y).Avg_Contacts
      = mean ((cohortRecords rs y).map (fun r => (r.contact_count : Rat)))
  ∧ (kpi_row rs y).Avg_Days_to_Close
      = mean ((cohortRecords rs y).map (fun r => r.days_to_plan_close))
  ∧ (kpi_row rs y).Median_Days_to_Close
      = median ((cohortRecords rs y).map (fun r => r.days_to_plan_close))
  ∧ (kpi_row rs y).pct_Zero_Touch
      = (((cohortRecords rs y).filter (fun r => r.contact_count = 0)).length : Rat)
          / ((cohortRecords rs y).length : Rat) * 100
  ∧ 0 ≤ (kpi_row rs y).pct_Zero_Touch
  ∧ (kpi_row rs y).pct_Zero_Touch ≤ 100 := by
  have hpos : 0 < (cohortRecords rs y).length := cohort_nonempty_of_mem_kpiYears h
  have hzle : ((cohortRecords rs y).filter (fun r => r.contact_count = 0)).length
      ≤ (cohortRecords rs y).length := List.length_filter_le _ _
  have hpct : (kpi_row rs y).pct_Zero_Touch
      = (((cohortRecords rs y).filter (fun r => r.contact_count = 0)).length : Rat)
          / ((cohortRecords rs y).length : Rat) * 100 := by
    by_cases hz : ((cohortRecords rs y).filter (fun r => r.contact_count = 0)).length = 0
    · simp [kpi_row, zero_touch, hz]
    · simp [kpi_row, zero_touch, hz]
  have htpos : (0 : Rat) < ((cohortRecords rs y).length : Rat) := by
    exact_mod_cast hpos
  refine ⟨rfl, hpos, rfl, rfl, rfl, hpct, ?_, ?_⟩
  · rw [hpct]
    positivity
  · rw [hpct]
    have h1 : (((cohortRecords rs y).filter (fun r => r.contact_count = 0)).length : Rat)
        / ((cohortRecords rs y).length : Rat) ≤ 1 := by
      rw [div_le_one htpos]
      exact_mod_cast hzle
    calc (((cohortRecords rs y).filter (fun r => r.contact_count = 0)).length : Rat)
          / ((cohortRecords rs y).length : Rat) * 100
        ≤ 1 * 100 := by
          exact mul_le_mul_of_nonneg_right h1 (by norm_num)
      _ = 100 := by norm_num

/-- Witness for `c3_kpi_cohort_row` on the one-record zero-touch cohort
`"2026"`. -/
theorem c3_kpi_cohort_row_witness :
    "2026" ∈ kpiYears [c3wRec]
  ∧ ((kpi_row [c3wRec] "2026").Total_Sales = (cohortRecords [c3wRec] "2026").length
  ∧ 1 ≤ (kpi_row [c3wRec] "2026").Total_Sales
  ∧ (kpi_row [c3wRec] "2026").Avg_Contacts
      = mean ((cohortRecords [c3wRec] "2026").map (fun r => (r.contact_count : Rat)))
  ∧ (kpi_row [c3wRec] "2026").Avg_Days_to_Close
      = mean ((cohortRecords [c3wRec] "2026").map (fun r => r.days_to_plan_close))
  ∧ (kpi_row [c3wRec] "2026").Median_Days_to_Close
      = median ((cohortRecords [c3wRec] "2026").map (fun r => r.days_to_plan_close))
  ∧ (kpi_row [c3wRec] "2026").pct_Zero_Touch
      = (((cohortRecords [c3wRec] "2026").filter (fun r => r.contact_count = 0)).length : Rat)
          / ((cohortRecords [c3wRec] "2026").length : Rat) * 100
  ∧ 0 ≤ (kpi_row [c3wRec] "2026").pct_Zero_Touch
  ∧ (kpi_row [c3wRec] "2026").pct_Zero_Touch ≤ 100) :=
  ⟨by decide, c3_kpi_cohort_row [c3wRec] "2026" (by decide)⟩

/-- C5: a record whose `plan_close_dt` is the unknown-date marker (`NaT`) is
invisible to every date-keyed aggregate — inserting it anywhere into the
record list leaves the daily, cumulative and weekly tables unchanged — while
the cohort KPI aggregate still counts it (`Total_Sales` grows by one). -/
theorem c5_dateless_record_excluded (l1 l2 : List SaleRecord) (r : SaleRecord)
    (h : r.plan_close_dt = none) :
    daily_sales (l1 ++ r :: l2) = daily_sales (l1 ++ l2)
  ∧ cumulative_sales (l1 ++ r :: l2) = cumulative_sales (l1 ++ l2)
  ∧ weekly_volume (l1 ++ r :: l2) = weekly_volume (l1 ++ l2)
  ∧ (kpi_row (l1 ++ r :: l2) r.campaign_year).Total_Sales
      = (kpi_row (l1 ++ l2) r.campaign_year).Total_Sales + 1
  ∧ (r.campaign_series, r.campaign_year)
      ∈ (series_stats (l1 ++ r :: l2)).map (fun t => (t.1, t.2.1)) := by
  have hdv : dateValid (l1 ++ r :: l2) = dateValid (l1 ++ l2) := by
    simp [dateValid, List.filter_append, h]
  refine ⟨?_, ?_, ?_, ?_, ?_⟩
  · simp only [daily_sales, hdv]
  · simp only [cumulative_sales, hdv]
  · simp only [weekly_volume, hdv]
  · simp [kpi_row, cohortRecords, List.filter_append, List.filter_cons]
    omega
  · rw [series_stats_keys]
    simp [List.mem_insertionSort, List.mem_dedup]

/-- Witness for `c5_dateless_record_excluded` on the concrete dateless record
`c5wRec`. -/
theorem c5_dateless_record_excluded_witness :
    c5wRec.plan_close_dt = none
  ∧ (daily_sales [c5wRec] = daily_sales []
  ∧ cumulative_sales [c5wRec] = cumulative_sales []
  ∧ weekly_volume [c5wRec] = weekly_volume []
  ∧ (kpi_row [c5wRec] c5wRec.campaign_year).Total_Sales
      = (kpi_row [] c5wRec.campaign_year).Total_Sales + 1
  ∧ (c5wRec.campaign_series, c5wRec.campaign_year)
      ∈ (series_stats [c5wRec]).map (fun t => (t.1, t.2.1))) :=
  ⟨rfl, by simpa using c5_dateless_record_excluded [] [] c5wRec rfl⟩

/-- C10: within every cohort the cumulative series is *strictly* increasing
along its (strictly ascending) close-date axis: the daily table never
synthesizes a zero-sales date — every listed `(year, date)` group has at
least one record — so each running-sum step adds a positive amount. -/
theorem c10_cumulative_strictly_increasing (rs : List SaleRecord) (y : String) :
    (∀ p ∈ daily_sales rs, 1 ≤ p.2.2)
  ∧ List.Chain' (fun p q : Date × Nat => p.2 < q.2) (cohort_cumulative rs y)
  ∧ List.Chain' (fun p q : Date × Nat => dateLT p.1 q.1) (cohort_cumulative rs y) := by
  refine ⟨?_, ?_, ?_⟩
  · intro p hp
    simp only [daily_sales, List.mem_flatMap, List.mem_map] at hp
    obtain ⟨y2, _, q, hq, rfl⟩ := hp
    simp only [cohortDailyRowsOf, List.mem_map] at hq
    obtain ⟨d, hd, rfl⟩ := hq
    exact dailyCount_pos_of_mem hd
  · unfold cohort_cumulative
    apply cumsumFrom_chain_lt
    intro p hp
    simp only [cohortDailyRowsOf, List.mem_map] at hp
    obtain ⟨d, hd, rfl⟩ := hp
    exact dailyCount_pos_of_mem hd
  · unfold cohort_cumulative
    have h1 : List.Chain' dateLT
        ((cumsumFrom 0 (cohortDailyRowsOf (dateValid rs) y)).map Prod.fst) := by
      rw [cumsumFrom_map_fst]
      unfold cohortDailyRowsOf
      rw [List.map_map]
      have h2 : (Prod.fst ∘ fun d => (d, dailyCountOf (dateValid rs) y d)) = id := rfl
      rw [h2, List.map_id]
      exact sortedCohortDates_chain (dateValid rs) y
    exact (List.chain'_map Prod.fst).mp h1

/-- C9 counterexample: the claim says each pivot row carries
`sales_count = count of records for that pair`.  The pivot of line 222 only
computes the mean: two inputs whose `("S1", "2025")` pair has 1 record and 2
records respectively produce *identical* pivot outputs, so no row datum equals
(or even determines) the per-pair record count. -/
theorem c9_no_sales_count :
    series_stats [c9RecA] = series_stats [c9RecA, c9RecB]
  ∧ ([c9RecA].filter
      (fun r => r.campaign_series = "S1" ∧ r.campaign_year = "2025")).length = 1
  ∧ ([c9RecA, c9RecB].filter
      (fun r => r.campaign_series = "S1" ∧ r.campaign_year = "2025")).length = 2 := by
  refine ⟨?_, by decide, by decide⟩
  norm_num [series_stats, pairLE, mean, c9RecA, c9RecB, List.dedup_cons_of_mem,
    List.dedup_cons_of_not_mem]

/-- C9 as amended: the pivot outputs exactly one row per
`(campaign_series, campaign_year)` pair present in the record set — no
duplicate keys, no synthesized zero-rows for absent combinations — and each
row carries `avg_contacts = mean(contact_count)` of that pair; it carries no
`sales_count`. -/
theorem c9_pivot_rows (rs : List SaleRecord) :
    ((series_stats rs).map (fun t => (t.1, t.2.1))).Nodup
  ∧ (∀ s y, (s, y) ∈ (series_stats rs).map (fun t => (t.1, t.2.1))
        ↔ ∃ r ∈ rs, r.campaign_series = s ∧ r.campaign_year = y)
  ∧ (∀ t ∈ series_stats rs,
      t.2.2 = mean ((rs.filter
        (fun r => r.campaign_series = t.1 ∧ r.campaign_year = t.2.1)).map
          (fun r => (r.contact_count : Rat)))) := by
  refine ⟨?_, ?_, ?_⟩
  · rw [series_stats_keys]
    exact (List.perm_insertionSort _ _).nodup_iff.mpr (List.nodup_dedup _)
  · intro s y
    rw [series_stats_keys]
    simp only [List.mem_insertionSort, List.mem_dedup, List.mem_map]
    constructor
    · rintro ⟨r, hr, hsy⟩
      obtain ⟨h1, h2⟩ := Prod.mk.injEq .. ▸ hsy
      exact ⟨r, hr, by simp_all⟩
    · rintro ⟨r, hr, h1, h2⟩
      exact ⟨r, hr, by simp [h1, h2]⟩
  · intro t ht
    unfold series_stats at ht
    obtain ⟨k, _, rfl⟩ := List.mem_map.mp ht
    rfl

/-- The Sunday residue class is 0 in the proleptic day numbering
(0001-01-01 is a Monday, so day 7, a Sunday, has residue 0). -/
theorem sundayAnchor_eq : sundayAnchor = 0 := by decide

/-- C8: the weekly-volume output (modelled from the spec, see
`weekly_volume`) buckets every date-valid record by a week-ending boundary:
each output row's bucket key lies in the Sunday residue class and counts
exactly the records resampled into it, each count is positive, and every
date-valid record falls in the bucket ending on the first Sunday on or after
its close date (strictly less than seven days later). -/
theorem c8_weekly_buckets (rs : List SaleRecord) :
    (∀ p ∈ weekly_volume rs,
        p.1 % 7 = sundayAnchor
      ∧ 1 ≤ p.2
      ∧ p.2 = (weekKeysOf (dateValid rs)).count p.1)
  ∧ (∀ r ∈ dateValid rs, ∀ d, r.plan_close_dt = some d →
        dayNumber d ≤ weekEndNum (dayNumber d)
      ∧ weekEndNum (dayNumber d) < dayNumber d + 7
      ∧ weekEndNum (dayNumber d) ∈ (weekly_volume rs).map Prod.fst) := by
  have hmod : ∀ n : Nat, weekEndNum n % 7 = sundayAnchor := by
    intro n
    rw [sundayAnchor_eq]
    unfold weekEndNum
    rw [sundayAnchor_eq]
    omega
  have hwin : ∀ n : Nat, n ≤ weekEndNum n ∧ weekEndNum n < n + 7 := by
    intro n
    unfold weekEndNum
    rw [sundayAnchor_eq]
    omega
  constructor
  · intro p hp
    simp only [weekly_volume, List.mem_map] at hp
    obtain ⟨k, hk, rfl⟩ := hp
    have hk2 : k ∈ weekKeysOf (dateValid rs) := by
      have := (List.mem_insertionSort (fun a b : Nat => a ≤ b)).mp hk
      exact List.mem_dedup.mp this
    obtain ⟨r, _, hrk⟩ := List.mem_filterMap.mp hk2
    refine ⟨?_, List.count_pos_iff.mpr hk2, rfl⟩
    obtain ⟨d, _, rfl⟩ := Option.map_eq_some'.mp hrk
    exact hmod _
  · intro r hr d hd
    have hkey : weekEndNum (dayNumber d) ∈ weekKeysOf (dateValid rs) :=
      List.mem_filterMap.mpr ⟨r, hr, by rw [hd]; rfl⟩
    refine ⟨(hwin _).1, (hwin _).2, ?_⟩
    simp only [weekly_volume, List.map_map]
    have hsorted : weekEndNum (dayNumber d)
        ∈ List.insertionSort (fun a b : Nat => a ≤ b) (weekKeysOf (dateValid rs)).dedup := by
      rw [List.mem_insertionSort]
      exact List.mem_dedup.mpr hkey
    exact List.mem_map.mpr ⟨weekEndNum (dayNumber d), hsorted, rfl⟩

end OutboundDash
